import Mathlib

/-!
Shallow embedding of the authentication and session-authorization core of a
Flask user-authentication application (src/models.py, src/utils.py,
src/routes.py, src/forms.py), together with theorems settling the frozen
claims about its specification.

Modelling conventions:
* SQLAlchemy rows become Lean structures; the database becomes explicit
  lists threaded through every operation.
* The Flask-Login session becomes an `Option Nat` (the stored user id, or
  `none` when anonymous); `current_user` is its resolution through the
  registered user loader.
* Timestamps are `Nat`; password hashing is an injective tagging function,
  an idealisation of bcrypt sufficient for the flow-level claims.
* A `Bool` flag (`logOk`) models whether the audit storage commit inside
  `log_activity` succeeds; the code catches any failure and rolls back.
* Field-level form validators supplied by external libraries (wtforms
  `Length`, `Regexp`, `Email`, `InputRequired`) are collaborators outside
  this repository; they are modelled as a single `fieldsOk : Bool` input.
  The repository-defined checks (duplicate username/email, password
  confirmation via `EqualTo`) are embedded explicitly.
-/

/-- UserAccount row, from `class User` in src/models.py. -/
structure UserAccount where
  id : Nat
  username : String
  email : String
  pwd : String
  is_admin : Bool
  first_name : Option String
  last_name : Option String
  phone : Option String
  created_at : Nat
  last_login : Option Nat
  is_active : Bool
deriving Repr, DecidableEq

/-- ActivityLog row, from `class ActivityLog` in src/models.py. -/
structure ActivityLog where
  user_id : Option Nat
  action : String
  description : Option String
  ip_address : Option String
  timestamp : Nat
deriving Repr, DecidableEq

/-- Flash message with its category, mirroring Flask `flash(text, category)`. -/
structure Flash where
  text : String
  category : String
deriving Repr, DecidableEq

/-- Response of a route: a redirect to a named endpoint or a rendered page. -/
inductive Resp where
  | redirect (target : String)
  | render (page : String)
deriving Repr, DecidableEq

/-- Whole-application state seen by a request: the user table, the activity
log table, and the Flask-Login session (the stored user id, if any). -/
structure DBState where
  users : List UserAccount
  logs : List ActivityLog
  session : Option Nat
deriving Repr, DecidableEq

/-- Outcome of a route handler: the new state, the response, and the flash
messages emitted during the request. -/
structure RouteResult where
  state : DBState
  resp : Resp
  flashes : List Flash
deriving Repr, DecidableEq

/-- Idealised bcrypt digest: `bcrypt.generate_password_hash`. The tag makes
the function injective on plaintexts, which is all the flow logic uses. -/
def hashPwd (p : String) : String := "bcrypt$" ++ p

/-- Idealised `bcrypt.check_password_hash(stored, given)`. -/
def checkPwd (stored given : String) : Bool := stored == hashPwd given

/-- The user loader registered with Flask-Login, from src/routes.py:
`load_user(user_id)` returns `User.query.get(int(user_id))`, a primary-key
lookup that does not consult `is_active`. -/
def load_user (users : List UserAccount) (uid : Nat) : Option UserAccount :=
  users.find? (fun u => u.id == uid)

/-- The identity Flask-Login exposes as `current_user`: the session id, if
present, resolved through `load_user`. -/
def current_user (st : DBState) : Option UserAccount :=
  st.session.bind (fun uid => load_user st.users uid)

/-- Flask-Login `current_user.is_authenticated`: true exactly when the
session resolves to a stored user. -/
def isAuthenticated (st : DBState) : Bool := (current_user st).isSome

/-- The first user whose email matches, from
`User.query.filter_by(email=...).first()` in the login route. -/
def findByEmail (users : List UserAccount) (e : String) : Option UserAccount :=
  users.find? (fun u => u.email == e)

/-- Construction of an ActivityLog row inside `log_activity` in
src/utils.py. The code writes `user_id if user_id else None`, so a Python
falsy id (0) is stored as NULL as well. -/
def mkActivity (uid : Option Nat) (action : String) (descr : Option String)
    (ip : Option String) (now : Nat) : ActivityLog :=
  { user_id := (match uid with
      | some i => if i = 0 then none else some i
      | none => none),
    action := action,
    description := descr,
    ip_address := ip,
    timestamp := now }

/-- The storage-layer append that `log_activity` attempts
(`db.session.add(activity); db.session.commit()`): it can fail, which the
`ok` flag models. -/
def appendActivity (ok : Bool) (entry : ActivityLog) (logs : List ActivityLog) :
    Except String (List ActivityLog) :=
  if ok then Except.ok (logs ++ [entry]) else Except.error "storage failure"

/-- log_activity from src/utils.py: builds the entry, attempts the append,
and on any storage failure rolls back and swallows the exception, returning
the log table unchanged. It never propagates an error to its caller. -/
def log_activity (uid : Option Nat) (action : String) (descr : Option String)
    (ip : Option String) (now : Nat) (ok : Bool) (logs : List ActivityLog) :
    List ActivityLog :=
  match appendActivity ok (mkActivity uid action descr ip now) logs with
  | Except.ok ls => ls
  | Except.error _ => logs

/-- Update `user.last_login = datetime.utcnow()` for the user with the given
id, leaving every other row unchanged (the committed effect of the success
branch of the login route). -/
def updateLastLogin (users : List UserAccount) (uid : Nat) (now : Nat) :
    List UserAccount :=
  users.map (fun u => if u.id = uid then { u with last_login := some now } else u)

/-- The shared failure branch of the login route (unknown email or password
mismatch): flash the generic danger message and record a Failed Login entry
with a null user id and the attempted email in the description. -/
def loginFailedBranch (st : DBState) (email : String) (ip : Option String)
    (now : Nat) (logOk : Bool) : RouteResult :=
  { state := { st with
      logs := log_activity none "Failed Login"
        (some ("Failed login attempt for email: " ++ email)) ip now logOk st.logs },
    resp := Resp.render "auth",
    flashes := [⟨"Invalid email or password!", "danger"⟩] }

/-- The login route from src/routes.py. An authenticated client is
redirected to the dashboard before the form is even built. Otherwise, on a
validated submission (`fieldsOk` models the library field validators): look
up by email, verify the password hash, and branch on `is_active` exactly as
the code does. The deactivated branch only flashes; it records nothing. -/
def login (st : DBState) (email pw : String) (fieldsOk : Bool)
    (ip : Option String) (now : Nat) (logOk : Bool) : RouteResult :=
  if isAuthenticated st then
    { state := st, resp := Resp.redirect "dashboard", flashes := [] }
  else if fieldsOk then
    match findByEmail st.users email with
    | some user =>
      if checkPwd user.pwd pw then
        if user.is_active then
          { state :=
              { users := updateLastLogin st.users user.id now,
                logs := log_activity (some user.id) "Login"
                  (some "User logged in successfully") ip now logOk st.logs,
                session := some user.id },
            resp := Resp.redirect "dashboard",
            flashes := [⟨"Welcome back, " ++ user.username ++ "!", "success"⟩] }
        else
          { state := st,
            resp := Resp.render "auth",
            flashes := [⟨"Your account has been deactivated. Please contact administrator.", "warning"⟩] }
      else loginFailedBranch st email ip now logOk
    | none => loginFailedBranch st email ip now logOk
  else
    { state := st, resp := Resp.render "auth", flashes := [] }

/-- Does the store already hold an account with this username or email? The
registration form runs the two repository-defined checks `validate_username`
and `validate_email` (src/forms.py), each a `filter_by(...).first()` lookup. -/
def hasDuplicate (users : List UserAccount) (username email : String) : Bool :=
  users.any (fun u => u.username == username || u.email == email)

/-- Next primary key the storage layer will assign to an inserted row. -/
def freshId (users : List UserAccount) : Nat :=
  users.foldr (fun u m => max u.id m) 0 + 1

/-- The storage-layer insert with its uniqueness constraint: committing a
row whose username or email collides with an existing row raises
IntegrityError instead of inserting. -/
def insertUser (users : List UserAccount) (u : UserAccount) :
    Except String (List UserAccount) :=
  if hasDuplicate users u.username u.email then Except.error "IntegrityError"
  else Except.ok (users ++ [u])

/-- The register route from src/routes.py. An authenticated client is
redirected to the dashboard before anything else. `concurrent` holds rows
inserted by other requests between form validation and this request's
commit, so the commit-time store is `st.users ++ concurrent`: this is the
late race the IntegrityError handler catches and reports as "User already
exists!" after rolling back. On success the new account is created with
`is_admin := false`, `is_active := true`, a hashed password, and a
Registration entry is recorded. A failed validation re-renders the form
without touching the store. -/
def register (st : DBState) (concurrent : List UserAccount)
    (username email pw cpwd : String) (first last phone : Option String)
    (fieldsOk : Bool) (ip : Option String) (now : Nat) (logOk : Bool) :
    RouteResult :=
  if isAuthenticated st then
    { state := st, resp := Resp.redirect "dashboard", flashes := [] }
  else if fieldsOk && pw == cpwd && !hasDuplicate st.users username email then
    let commitStore := st.users ++ concurrent
    let newuser : UserAccount :=
      { id := freshId commitStore,
        username := username,
        email := email,
        pwd := hashPwd pw,
        is_admin := false,
        first_name := first,
        last_name := last,
        phone := phone,
        created_at := now,
        last_login := none,
        is_active := true }
    match insertUser commitStore newuser with
    | Except.ok users1 =>
        { state :=
            { users := users1,
              logs := log_activity (some newuser.id) "Registration"
                (some "New user account created") ip now logOk st.logs,
              session := st.session },
          resp := Resp.redirect "login",
          flashes := [⟨"Account successfully created! Please log in.", "success"⟩] }
    | Except.error _ =>
        { state := { st with users := commitStore },
          resp := Resp.render "auth",
          flashes := [⟨"User already exists!", "warning"⟩] }
  else
    { state := st, resp := Resp.render "auth", flashes := [] }

/-- Does this submission hit the branch of the login route where the
password verifies but the account is inactive (the deactivated branch)? -/
def deactivatedAttempt (st : DBState) (email pw : String) : Bool :=
  match findByEmail st.users email with
  | some u => checkPwd u.pwd pw && !u.is_active
  | none => false

/-- Do the submitted credentials pass the lookup-and-verify check of the
login route (`user and bcrypt.check_password_hash(user.pwd, ...)`)? -/
def credentialsOk (st : DBState) (email pw : String) : Bool :=
  match findByEmail st.users email with
  | some u => checkPwd u.pwd pw
  | none => false

/-- Authorization decision of the admin_required decorator in src/utils.py,
carrying the redirect target and the flash message of each denial. -/
inductive AuthDecision where
  | allow
  | denyUnauthenticated (target : String) (msg : Flash)
  | denyForbidden (target : String) (msg : Flash)
deriving Repr, DecidableEq

/-- admin_required from src/utils.py as a decision function: anonymous
clients are sent to the login page with a warning flash; authenticated
non-admins are sent to the dashboard with a danger flash; admins pass. -/
def admin_required_check (st : DBState) : AuthDecision :=
  match current_user st with
  | none =>
      AuthDecision.denyUnauthenticated "login"
        ⟨"Please log in to access this page.", "warning"⟩
  | some u =>
      if u.is_admin then AuthDecision.allow
      else
        AuthDecision.denyForbidden "dashboard"
          ⟨"You need administrator privileges to access this page.", "danger"⟩

/-- Flask-Login login_required as configured by src/app.py
(`login_view = "login"`, `login_message_category = "info"`, the library's
default message text): an anonymous request is redirected to the login
page with an info-category flash before the view body runs. -/
def login_required_gate (st : DBState) : AuthDecision :=
  if isAuthenticated st then AuthDecision.allow
  else
    AuthDecision.denyUnauthenticated "login"
      ⟨"Please log in to access this page.", "info"⟩

/-- The protection chain on every admin route in src/routes.py:
`@login_required` runs first (so an anonymous request never reaches
admin_required's own unauthenticated branch), then `@admin_required`. -/
def adminProtected (st : DBState) : AuthDecision :=
  match login_required_gate st with
  | AuthDecision.allow => admin_required_check st
  | d => d

/-- The decorator chain applied to a protected operation: the wrapped view
body runs only when the decision is allow; any denial returns before the
body, so a denied request performs no mutation. -/
def runProtected (st : DBState) (op : DBState → DBState) :
    DBState × AuthDecision :=
  match adminProtected st with
  | AuthDecision.allow => (op st, AuthDecision.allow)
  | d => (st, d)

/-- The delete_user route from src/routes.py, with the login_required and
admin_required decorators inlined (their guards run before the body, so a
denied request reaches none of it). The body looks up the target with
`get_or_404`, rejects self-deletion with a danger flash and no mutation,
and otherwise deletes the row, commits (`commitOk` models commit success,
whose failure the except clause turns into a rollback and an error flash),
and records a User Delete entry naming the deleted username. -/
def delete_user (st : DBState) (target_id : Nat) (ip : Option String)
    (now : Nat) (commitOk logOk : Bool) : RouteResult :=
  match current_user st with
  | none =>
      { state := st, resp := Resp.redirect "login",
        flashes := [⟨"Please log in to access this page.", "info"⟩] }
  | some actor =>
      if !actor.is_admin then
        { state := st, resp := Resp.redirect "dashboard",
          flashes := [⟨"You need administrator privileges to access this page.", "danger"⟩] }
      else
        match load_user st.users target_id with
        | none => { state := st, resp := Resp.render "404", flashes := [] }
        | some user =>
            if user.id == actor.id then
              { state := st, resp := Resp.redirect "manage_users",
                flashes := [⟨"You cannot delete your own account!", "danger"⟩] }
            else if commitOk then
              { state :=
                  { users := st.users.filter (fun v => v.id != user.id),
                    logs := log_activity (some actor.id) "User Delete"
                      (some ("Deleted user: " ++ user.username)) ip now logOk st.logs,
                    session := st.session },
                resp := Resp.redirect "manage_users",
                flashes := [⟨"User " ++ user.username ++ " deleted successfully!", "success"⟩] }
            else
              { state := st, resp := Resp.redirect "manage_users",
                flashes := [⟨"An error occurred while deleting the user.", "danger"⟩] }

/-- Fixture: an active regular user (id 1). -/
def uActive : UserAccount :=
  { id := 1, username := "alice", email := "alice@x.com",
    pwd := hashPwd "pw12345678", is_admin := false,
    first_name := none, last_name := none, phone := none,
    created_at := 0, last_login := none, is_active := true }

/-- Fixture: a deactivated user (id 2). -/
def uInactive : UserAccount :=
  { id := 2, username := "bob", email := "bob@x.com",
    pwd := hashPwd "hunter2pass", is_admin := false,
    first_name := none, last_name := none, phone := none,
    created_at := 0, last_login := none, is_active := false }

/-- Fixture: an active admin (id 3). -/
def uAdmin : UserAccount :=
  { id := 3, username := "carol", email := "carol@x.com",
    pwd := hashPwd "adminpw123", is_admin := true,
    first_name := none, last_name := none, phone := none,
    created_at := 0, last_login := none, is_active := true }

/-- Fixture: a user inserted by a concurrent request (id 4), used to
exercise the commit-time uniqueness race. -/
def uRace : UserAccount :=
  { id := 4, username := "dave", email := "dave@x.com",
    pwd := hashPwd "racerpw123", is_admin := false,
    first_name := none, last_name := none, phone := none,
    created_at := 0, last_login := none, is_active := true }

/-- Fixture: the three users, empty log, anonymous session. -/
def stBase : DBState := { users := [uActive, uInactive, uAdmin], logs := [], session := none }

/-- Fixture: session holding the active regular user. -/
def stUserSession : DBState := { users := [uActive, uInactive, uAdmin], logs := [], session := some 1 }

/-- Fixture: session holding the deactivated user. -/
def stInactiveSession : DBState := { users := [uActive, uInactive, uAdmin], logs := [], session := some 2 }

/-- Fixture: session holding the admin. -/
def stAdminSession : DBState := { users := [uActive, uInactive, uAdmin], logs := [], session := some 3 }

/-- A find? that succeeds returns an element satisfying the predicate and
belonging to the list; helper shared by the session-resolution lemmas. -/
theorem find_isSome_eq_any {α : Type} (p : α → Bool) (l : List α) :
    (l.find? p).isSome = l.any p := by
  induction l with
  | nil => rfl
  | cons a l ih =>
      cases h : p a <;> simp [List.find?, List.any, h, ih]

/-- A user returned by the loader has the looked-up id. -/
theorem load_user_id (users : List UserAccount) (uid : Nat) (u : UserAccount)
    (h : load_user users uid = some u) : u.id = uid := by
  unfold load_user at h
  have hp := List.find?_some h
  simpa using hp

/-- A user returned by the loader is a stored row. -/
theorem load_user_mem (users : List UserAccount) (uid : Nat) (u : UserAccount)
    (h : load_user users uid = some u) : u ∈ users :=
  List.mem_of_find?_eq_some h

/-- C1 counterexample: a validated login attempt by the deactivated user
with the correct password reaches the deactivated branch and creates zero
ActivityLogEntry rows (the log stays empty), refuting "exactly one
ActivityLogEntry is created per login attempt ... including the branch
where the password verifies but the account is inactive". -/
theorem claim1_counterexample :
    isAuthenticated stBase = false ∧
    (login stBase "bob@x.com" "hunter2pass" true none 5 true).state.logs = [] ∧
    (login stBase "bob@x.com" "hunter2pass" true none 5 true).flashes =
      [⟨"Your account has been deactivated. Please contact administrator.", "warning"⟩] :=
  ⟨rfl, rfl, rfl⟩

/-- C1 (amended): a validated login attempt with working audit storage
creates exactly one ActivityLogEntry when it succeeds or when the
credentials fail, and exactly zero in the branch where the password
verifies but the account is inactive. -/
theorem claim1_amended (st : DBState) (email pw : String) (ip : Option String) (now : Nat)
    (h1 : isAuthenticated st = false) :
    (login st email pw true ip now true).state.logs.length =
      st.logs.length + (if deactivatedAttempt st email pw then 0 else 1) := by
  unfold login deactivatedAttempt
  simp only [h1, Bool.false_eq_true, if_false, if_true]
  cases hf : findByEmail st.users email with
  | none => simp [loginFailedBranch, log_activity, appendActivity]
  | some u =>
      cases hc : checkPwd u.pwd pw with
      | false => simp [hc, loginFailedBranch, log_activity, appendActivity]
      | true =>
          cases ha : u.is_active with
          | false => simp [hc, ha, log_activity, appendActivity]
          | true => simp [hc, ha, log_activity, appendActivity]

/-- C1 witness: the amended count theorem evaluated on a successful attempt
by the active user against the anonymous base state. -/
theorem claim1_amended_witness :
    isAuthenticated stBase = false ∧
    (login stBase "alice@x.com" "pw12345678" true none 7 true).state.logs.length =
      stBase.logs.length +
        (if deactivatedAttempt stBase "alice@x.com" "pw12345678" then 0 else 1) :=
  ⟨rfl, claim1_amended stBase "alice@x.com" "pw12345678" none 7 rfl⟩

/-- C2 counterexample: a session holding the id of the deactivated user
still resolves to that user and still counts as authenticated on the next
request, refuting "any resolved account has isActive = true; if the
underlying account is inactive ... the session is treated as invalid". -/
theorem claim2_counterexample :
    isAuthenticated stInactiveSession = true ∧
    (current_user stInactiveSession).map UserAccount.is_active = some false :=
  ⟨rfl, rfl⟩

/-- C2 (amended): with duplicate-free ids, a session token resolves to zero
or exactly one UserAccount, namely the unique stored account with the
session's id, regardless of its isActive flag; the session counts as
authenticated exactly when such an account still exists, so a deleted
account makes the session anonymous on the next request but a merely
inactive account does not. -/
theorem claim2_amended (st : DBState) (uid : Nat)
    (hn : (st.users.map UserAccount.id).Nodup) (hs : st.session = some uid) :
    (∀ u, current_user st = some u ↔ (u ∈ st.users ∧ u.id = uid)) ∧
    isAuthenticated st = st.users.any (fun u => u.id == uid) := by
  have hcur : current_user st = load_user st.users uid := by
    unfold current_user; rw [hs]; rfl
  constructor
  · intro u
    rw [hcur]
    constructor
    · intro h
      exact ⟨load_user_mem _ _ _ h, load_user_id _ _ _ h⟩
    · rintro ⟨hm, hid⟩
      have hsome : (load_user st.users uid).isSome := by
        unfold load_user
        rw [find_isSome_eq_any]
        exact List.any_eq_true.mpr ⟨u, hm, by simp [hid]⟩
      obtain ⟨v, hv⟩ := Option.isSome_iff_exists.mp hsome
      have hvm := load_user_mem _ _ _ hv
      have hvid := load_user_id _ _ _ hv
      have hvu : v = u := List.inj_on_of_nodup_map hn hvm hm (by rw [hvid, hid])
      rw [hv, hvu]
  · unfold isAuthenticated
    rw [hcur]
    unfold load_user
    exact find_isSome_eq_any _ _

/-- C2 witness: the amended resolution theorem evaluated on the session
holding the active user's id. -/
theorem claim2_amended_witness :
    current_user stUserSession = some uActive ∧
    isAuthenticated stUserSession = stUserSession.users.any (fun u => u.id == 1) := by
  have h := claim2_amended stUserSession 1 (by decide) rfl
  exact ⟨(h.1 uActive).mpr ⟨by decide, rfl⟩, h.2⟩

/-- C3 counterexample: an authenticated non-admin is denied with a
danger-category flash, not the warning-category message the claim states. -/
theorem claim3_counterexample :
    adminProtected stUserSession =
      AuthDecision.denyForbidden "dashboard"
        ⟨"You need administrator privileges to access this page.", "danger"⟩ ∧
    "danger" ≠ "warning" :=
  ⟨rfl, by decide⟩

/-- C3 (amended): for every operation protected by the admin decorator
chain, the decision is Allow when the session is authenticated as an admin,
DenyUnauthenticated (redirect to login with an info-category message) when
the session is anonymous, and DenyForbidden (redirect to the dashboard
with a danger-category message, not a warning one) when authenticated but
not admin; any denial short-circuits before the operation body, so a
denied request performs no mutation. -/
theorem claim3_amended (st : DBState) (op : DBState → DBState) :
    (current_user st = none →
      adminProtected st =
        AuthDecision.denyUnauthenticated "login"
          ⟨"Please log in to access this page.", "info"⟩) ∧
    (∀ u, current_user st = some u → u.is_admin = true →
      adminProtected st = AuthDecision.allow) ∧
    (∀ u, current_user st = some u → u.is_admin = false →
      adminProtected st =
        AuthDecision.denyForbidden "dashboard"
          ⟨"You need administrator privileges to access this page.", "danger"⟩) ∧
    (adminProtected st ≠ AuthDecision.allow → (runProtected st op).1 = st) := by
  refine ⟨?_, ?_, ?_, ?_⟩
  · intro h
    have hAuth : isAuthenticated st = false := by
      unfold isAuthenticated; rw [h]; rfl
    unfold adminProtected login_required_gate
    simp [hAuth]
  · intro u h ha
    have hAuth : isAuthenticated st = true := by
      unfold isAuthenticated; rw [h]; rfl
    unfold adminProtected login_required_gate admin_required_check
    rw [h]
    simp [hAuth, ha]
  · intro u h ha
    have hAuth : isAuthenticated st = true := by
      unfold isAuthenticated; rw [h]; rfl
    unfold adminProtected login_required_gate admin_required_check
    rw [h]
    simp [hAuth, ha]
  · intro h
    cases hd : adminProtected st with
    | allow => exact absurd hd h
    | denyUnauthenticated t m => simp [runProtected, hd]
    | denyForbidden t m => simp [runProtected, hd]

/-- C3 witness: the amended decision theorem evaluated on the admin session
(Allow) and on the anonymous base state (denial leaves the state intact). -/
theorem claim3_amended_witness :
    adminProtected stAdminSession = AuthDecision.allow ∧
    (runProtected stBase (fun s => s)).1 = stBase := by
  refine ⟨(claim3_amended stAdminSession (fun s => s)).2.1 uAdmin rfl rfl,
    (claim3_amended stBase (fun s => s)).2.2.2 ?_⟩
  decide

/-- C4: when the submitted email resolves to an account, the password
verifies against the stored hash, and the account is active, the login
flow establishes the session for that account, sets its last_login to the
current time (and only touches matching rows), appends exactly one Login
entry, and redirects to the dashboard. -/
theorem claim4_login_success (st : DBState) (email pw : String) (ip : Option String)
    (now : Nat) (u : UserAccount)
    (h1 : isAuthenticated st = false)
    (h2 : findByEmail st.users email = some u)
    (h3 : checkPwd u.pwd pw = true)
    (h4 : u.is_active = true) :
    (login st email pw true ip now true).state.session = some u.id ∧
    (login st email pw true ip now true).state.users =
      st.users.map (fun v => if v.id = u.id then { v with last_login := some now } else v) ∧
    (login st email pw true ip now true).state.logs =
      st.logs ++ [mkActivity (some u.id) "Login" (some "User logged in successfully") ip now] ∧
    (login st email pw true ip now true).resp = Resp.redirect "dashboard" := by
  unfold login
  simp [h1, h2, h3, h4, updateLastLogin, log_activity, appendActivity]

/-- C4 witness: the success theorem evaluated for the active user logging
in with the correct password against the anonymous base state. -/
theorem claim4_witness :
    (login stBase "alice@x.com" "pw12345678" true none 7 true).state.session = some uActive.id ∧
    (login stBase "alice@x.com" "pw12345678" true none 7 true).resp = Resp.redirect "dashboard" := by
  have h := claim4_login_success stBase "alice@x.com" "pw12345678" none 7 uActive
    rfl (by decide) (by decide) rfl
  exact ⟨h.1, h.2.2.2⟩

/-- C5: when the submitted email resolves to an account and the password
verifies but the account is inactive, the flow returns the distinct
"account deactivated" warning and leaves the entire state unchanged: no
session, no last_login update, and no log entry of any kind. -/
theorem claim5_deactivated (st : DBState) (email pw : String) (ip : Option String)
    (now : Nat) (logOk : Bool) (u : UserAccount)
    (h1 : isAuthenticated st = false)
    (h2 : findByEmail st.users email = some u)
    (h3 : checkPwd u.pwd pw = true)
    (h4 : u.is_active = false) :
    login st email pw true ip now logOk =
      { state := st, resp := Resp.render "auth",
        flashes := [⟨"Your account has been deactivated. Please contact administrator.", "warning"⟩] } := by
  unfold login
  simp [h1, h2, h3, h4]

/-- C5 witness: the deactivated-account theorem evaluated for the inactive
user submitting their correct password. -/
theorem claim5_witness :
    login stBase "bob@x.com" "hunter2pass" true none 5 false =
      { state := stBase, resp := Resp.render "auth",
        flashes := [⟨"Your account has been deactivated. Please contact administrator.", "warning"⟩] } :=
  claim5_deactivated stBase "bob@x.com" "hunter2pass" none 5 false uInactive
    rfl (by decide) (by decide) rfl

/-- C6: registration is rejected without creating any UserAccount whenever
the username or email is already taken anywhere in the commit-time store:
a duplicate visible at validation fails the form against the unchanged
store, and a duplicate that only appears at commit time (a late race,
modelled by rows inserted concurrently between the pre-check and the
commit) is caught as an IntegrityError and reported as the "User already
exists!" uniqueness warning rather than a crash, with this request's
insert rolled back and no Registration entry recorded. -/
theorem claim6_duplicate (st : DBState) (concurrent : List UserAccount)
    (username email pw cpwd : String) (first last phone : Option String)
    (fieldsOk : Bool) (ip : Option String) (now : Nat) (logOk : Bool)
    (h1 : isAuthenticated st = false)
    (h2 : hasDuplicate (st.users ++ concurrent) username email = true) :
    (register st concurrent username email pw cpwd first last phone fieldsOk ip now logOk).resp =
      Resp.render "auth" ∧
    (∀ u ∈ (register st concurrent username email pw cpwd first last phone fieldsOk ip now logOk).state.users,
      u ∈ st.users ++ concurrent) ∧
    (register st concurrent username email pw cpwd first last phone fieldsOk ip now logOk).state.logs =
      st.logs ∧
    (hasDuplicate st.users username email = false → fieldsOk = true → pw = cpwd →
      (register st concurrent username email pw cpwd first last phone fieldsOk ip now logOk).flashes =
        [⟨"User already exists!", "warning"⟩]) := by
  cases hv : fieldsOk && pw == cpwd && !hasDuplicate st.users username email with
  | false =>
      have hreg : register st concurrent username email pw cpwd first last phone fieldsOk ip now logOk =
          { state := st, resp := Resp.render "auth", flashes := [] } := by
        unfold register
        simp [h1, hv]
      rw [hreg]
      refine ⟨rfl, fun u hu => List.mem_append_left _ hu, rfl, ?_⟩
      intro hd fOk pc
      exfalso
      rw [fOk, pc, hd] at hv
      simp at hv
  | true =>
      have hreg : register st concurrent username email pw cpwd first last phone fieldsOk ip now logOk =
          { state := { st with users := st.users ++ concurrent }, resp := Resp.render "auth",
            flashes := [⟨"User already exists!", "warning"⟩] } := by
        unfold register
        simp [h1, hv, insertUser, h2]
      rw [hreg]
      exact ⟨rfl, fun u hu => hu, rfl, fun _ _ _ => rfl⟩

/-- C6 witness: the duplicate-rejection theorem evaluated on a late race,
where the colliding row arrives only between validation and commit. -/
theorem claim6_witness :
    (register stBase [uRace] "dave" "dave@x.com" "pw12345678" "pw12345678"
        none none none true none 9 true).flashes =
      [⟨"User already exists!", "warning"⟩] ∧
    (register stBase [uRace] "dave" "dave@x.com" "pw12345678" "pw12345678"
        none none none true none 9 true).state.logs = stBase.logs := by
  have h := claim6_duplicate stBase [uRace] "dave" "dave@x.com" "pw12345678" "pw12345678"
    none none none true none 9 true rfl (by decide)
  exact ⟨h.2.2.2 (by decide) rfl rfl, h.2.2.1⟩

/-- C7: an admin delete request whose target id equals the acting user's
own id leaves the entire state unchanged regardless of the actor's role
flags (a non-admin is stopped by the authorization gate, an admin by the
self-deletion check, which flashes the rejection message). -/
theorem claim7_self_delete (st : DBState) (ip : Option String) (now : Nat)
    (commitOk logOk : Bool) (actor : UserAccount)
    (h : current_user st = some actor) :
    (delete_user st actor.id ip now commitOk logOk).state = st ∧
    (actor.is_admin = true →
      (delete_user st actor.id ip now commitOk logOk).flashes =
        [⟨"You cannot delete your own account!", "danger"⟩]) := by
  have hload : load_user st.users actor.id = some actor := by
    unfold current_user at h
    cases hs : st.session with
    | none => rw [hs] at h; exact absurd h (by simp)
    | some sid =>
        rw [hs] at h
        have h2 : load_user st.users sid = some actor := h
        have hid := load_user_id _ _ _ h2
        rw [hid]
        exact h2
  unfold delete_user
  rw [h]
  cases ha : actor.is_admin with
  | false => simp [ha]
  | true => simp [ha, hload]

/-- C7 witness: the self-deletion theorem evaluated for the admin session
targeting the admin's own id. -/
theorem claim7_witness :
    (delete_user stAdminSession 3 none 4 true true).state = stAdminSession ∧
    (delete_user stAdminSession 3 none 4 true true).flashes =
      [⟨"You cannot delete your own account!", "danger"⟩] := by
  have h := claim7_self_delete stAdminSession none 4 true true uAdmin rfl
  exact ⟨h.1, h.2 rfl⟩

/-- C8: the activity recorder never propagates a storage failure to its
caller: when the underlying append fails, log_activity swallows the error
and returns the log unchanged, and the login flow's response, flash
messages, session, and user table are identical whether or not audit
storage works — the triggering operation completes with its own result. -/
theorem claim8_log_best_effort :
    ∀ (uid : Option Nat) (action : String) (descr ip : Option String) (now : Nat)
      (logs : List ActivityLog),
      appendActivity false (mkActivity uid action descr ip now) logs =
        Except.error "storage failure" ∧
      log_activity uid action descr ip now false logs = logs ∧
      ∀ (st : DBState) (email pw : String) (fieldsOk : Bool) (ip2 : Option String) (t : Nat),
        (login st email pw fieldsOk ip2 t false).resp =
          (login st email pw fieldsOk ip2 t true).resp ∧
        (login st email pw fieldsOk ip2 t false).flashes =
          (login st email pw fieldsOk ip2 t true).flashes ∧
        (login st email pw fieldsOk ip2 t false).state.session =
          (login st email pw fieldsOk ip2 t true).state.session ∧
        (login st email pw fieldsOk ip2 t false).state.users =
          (login st email pw fieldsOk ip2 t true).state.users := by
  intro uid action descr ip now logs
  refine ⟨rfl, rfl, ?_⟩
  intro st email pw fieldsOk ip2 t
  unfold login loginFailedBranch
  cases h1 : isAuthenticated st with
  | true => simp
  | false =>
      cases fieldsOk with
      | false => simp
      | true =>
          cases hf : findByEmail st.users email with
          | none => simp
          | some u =>
              cases hc : checkPwd u.pwd pw with
              | false => simp [hc]
              | true =>
                  cases ha : u.is_active with
                  | false => simp [hc, ha]
                  | true => simp [hc, ha]

/-- C9: a request from an authenticated session to the login or register
route is redirected to the dashboard before any validation runs, with no
flash, no account creation, no session change, and no log entry — the
state is returned exactly as it was. -/
theorem claim9_authenticated_noop (st : DBState) (h : isAuthenticated st = true) :
    (∀ (email pw : String) (fieldsOk : Bool) (ip : Option String) (now : Nat) (logOk : Bool),
      login st email pw fieldsOk ip now logOk =
        { state := st, resp := Resp.redirect "dashboard", flashes := [] }) ∧
    (∀ (concurrent : List UserAccount) (username email pw cpwd : String)
      (first last phone : Option String) (fieldsOk : Bool) (ip : Option String)
      (now : Nat) (logOk : Bool),
      register st concurrent username email pw cpwd first last phone fieldsOk ip now logOk =
        { state := st, resp := Resp.redirect "dashboard", flashes := [] }) := by
  constructor
  · intro email pw fieldsOk ip now logOk
    unfold login
    simp [h]
  · intro concurrent username email pw cpwd first last phone fieldsOk ip now logOk
    unfold register
    simp [h]

/-- C9 witness: the no-op theorem evaluated on the active user's session
for both the login and the register route. -/
theorem claim9_witness :
    login stUserSession "e@x.com" "whatever123" true none 0 true =
      { state := stUserSession, resp := Resp.redirect "dashboard", flashes := [] } ∧
    register stUserSession [] "dave" "dave@x.com" "pw12345678" "pw12345678"
        none none none true none 0 true =
      { state := stUserSession, resp := Resp.redirect "dashboard", flashes := [] } := by
  have h := claim9_authenticated_noop stUserSession rfl
  exact ⟨h.1 _ _ _ _ _ _, h.2 _ _ _ _ _ _ _ _ _ _ _ _⟩

/-- C10: whenever the submitted credentials fail the lookup-and-verify
check — whether the email is unknown or the email matched an account whose
password check failed — the recorded Failed Login entry has a null user
id and a description consisting of the fixed text followed by the
attempted email, so both failure causes produce entries of identical
shape, alongside the generic danger flash. -/
theorem claim10_failed_login_shape (st : DBState) (email pw : String)
    (ip : Option String) (now : Nat)
    (h1 : isAuthenticated st = false)
    (h2 : credentialsOk st email pw = false) :
    (login st email pw true ip now true).state.logs =
      st.logs ++ [{ user_id := none, action := "Failed Login",
                    description := some ("Failed login attempt for email: " ++ email),
                    ip_address := ip, timestamp := now }] ∧
    (login st email pw true ip now true).flashes = [⟨"Invalid email or password!", "danger"⟩] := by
  unfold login
  unfold credentialsOk at h2
  cases hf : findByEmail st.users email with
  | none => simp [h1, hf, loginFailedBranch, log_activity, appendActivity, mkActivity]
  | some u =>
      rw [hf] at h2
      have h3 : checkPwd u.pwd pw = false := h2
      simp [h1, hf, h3, loginFailedBranch, log_activity, appendActivity, mkActivity]

/-- C10 witness: the failed-login theorem evaluated for an existing email
with a wrong password, the cause the claim singles out. -/
theorem claim10_witness :
    (login stBase "alice@x.com" "wrongpw123" true (some "1.2.3.4") 11 true).state.logs =
      stBase.logs ++ [{ user_id := none, action := "Failed Login",
                        description := some ("Failed login attempt for email: " ++ "alice@x.com"),
                        ip_address := some "1.2.3.4", timestamp := 11 }] :=
  (claim10_failed_login_shape stBase "alice@x.com" "wrongpw123" (some "1.2.3.4") 11
    rfl (by decide)).1
